import Mathlib

/-!
Verification of the v4l2ctl device facade (`src/v4l2ctl/v4l2device.py`)
against its natural-language specification.

The file shallowly embeds the Python module: pure computations become Lean
functions, the kernel ioctl transport becomes an explicit function parameter
returning `Except`, exceptions become `Except`/`Option` results, and the
facade's single mutable field (`_buffer_type`) is threaded as explicit state.
Kernel interaction is made observable through explicit call traces
(`List KernelCall`).

The helper module `v4l2interface` (enum/flag declarations and the
`IoctlError` class) is not part of the sources; the pieces the claims need
are modelled from the spec where indicated.
-/

namespace V4l2Ctl

/-- View of an `Except` value as a sum, used to derive decidable equality. -/
def exceptToSum : Except ε α → ε ⊕ α
  | .error e => .inl e
  | .ok a => .inr a

instance [DecidableEq ε] [DecidableEq α] : DecidableEq (Except ε α) := fun a b =>
  decidable_of_iff (exceptToSum a = exceptToSum b)
    (by cases a <;> cases b <;> simp [exceptToSum])

/-- Modelled from the spec: the ioctl transport (module `v4l2interface`, not in
the sources) raises a generic I/O failure on error — in Python an
`OSError`-class exception (`IoctlError`) carrying an errno, rendered as
"[Errno n] message". Every kernel-call failure in this embedding is such a
value. -/
structure OSErr where
  errno : Nat
  strerror : String
deriving DecidableEq, Repr

/-- Python's `str()` rendering of an `OSError`-class exception: the form
"[Errno n] message", which the source matches substrings against. -/
def OSErr.render (e : OSErr) : String :=
  "[Errno " ++ toString e.errno ++ "] " ++ e.strerror

/-- Decidable check that `pat` occurs at the start of `l` (element-wise). -/
def listStartsWith [BEq α] : List α → List α → Bool
  | [], _ => true
  | _ :: _, [] => false
  | a :: as, b :: bs => a == b && listStartsWith as bs

/-- Decidable check that `pat` occurs somewhere inside `l` as a contiguous
run, mirroring Python's `in` operator on strings. -/
def listHasRun [BEq α] (pat : List α) : List α → Bool
  | [] => pat.isEmpty
  | b :: bs => listStartsWith pat (b :: bs) || listHasRun pat bs

/-- Python's substring test `pat in s`. -/
def strContains (s pat : String) : Bool :=
  listHasRun pat.toList s.toList

/-- Modelled from the spec: the buffer-type enumeration `V4l2BufferType`
declared in `v4l2interface` (not in the sources) — a Python `IntEnum` of the
kernel's buffer-type discriminators, in canonical declaration order
`VIDEO_CAPTURE = 1` … `META_OUTPUT = 14`. -/
inductive V4l2BufferType
  | VIDEO_CAPTURE
  | VIDEO_OUTPUT
  | VIDEO_OVERLAY
  | VBI_CAPTURE
  | VBI_OUTPUT
  | SLICED_VBI_CAPTURE
  | SLICED_VBI_OUTPUT
  | VIDEO_OUTPUT_OVERLAY
  | VIDEO_CAPTURE_MPLANE
  | VIDEO_OUTPUT_MPLANE
  | SDR_CAPTURE
  | SDR_OUTPUT
  | META_CAPTURE
  | META_OUTPUT
deriving DecidableEq, Repr, Inhabited

namespace V4l2BufferType

/-- Numeric value of each enumerator (the kernel's `v4l2_buf_type` codes). -/
def toNat : V4l2BufferType → Nat
  | VIDEO_CAPTURE => 1
  | VIDEO_OUTPUT => 2
  | VIDEO_OVERLAY => 3
  | VBI_CAPTURE => 4
  | VBI_OUTPUT => 5
  | SLICED_VBI_CAPTURE => 6
  | SLICED_VBI_OUTPUT => 7
  | VIDEO_OUTPUT_OVERLAY => 8
  | VIDEO_CAPTURE_MPLANE => 9
  | VIDEO_OUTPUT_MPLANE => 10
  | SDR_CAPTURE => 11
  | SDR_OUTPUT => 12
  | META_CAPTURE => 13
  | META_OUTPUT => 14

/-- Python repr-like rendering of one enumerator inside a printed list. -/
def pyName : V4l2BufferType → String
  | VIDEO_CAPTURE => "VIDEO_CAPTURE"
  | VIDEO_OUTPUT => "VIDEO_OUTPUT"
  | VIDEO_OVERLAY => "VIDEO_OVERLAY"
  | VBI_CAPTURE => "VBI_CAPTURE"
  | VBI_OUTPUT => "VBI_OUTPUT"
  | SLICED_VBI_CAPTURE => "SLICED_VBI_CAPTURE"
  | SLICED_VBI_OUTPUT => "SLICED_VBI_OUTPUT"
  | VIDEO_OUTPUT_OVERLAY => "VIDEO_OUTPUT_OVERLAY"
  | VIDEO_CAPTURE_MPLANE => "VIDEO_CAPTURE_MPLANE"
  | VIDEO_OUTPUT_MPLANE => "VIDEO_OUTPUT_MPLANE"
  | SDR_CAPTURE => "SDR_CAPTURE"
  | SDR_OUTPUT => "SDR_OUTPUT"
  | META_CAPTURE => "META_CAPTURE"
  | META_OUTPUT => "META_OUTPUT"

end V4l2BufferType

/-- Canonical declaration order of the enumeration: iterating
`for buftype in V4l2BufferType` in the source walks this list. -/
def allBufferTypes : List V4l2BufferType :=
  [.VIDEO_CAPTURE, .VIDEO_OUTPUT, .VIDEO_OVERLAY, .VBI_CAPTURE, .VBI_OUTPUT,
   .SLICED_VBI_CAPTURE, .SLICED_VBI_OUTPUT, .VIDEO_OUTPUT_OVERLAY,
   .VIDEO_CAPTURE_MPLANE, .VIDEO_OUTPUT_MPLANE, .SDR_CAPTURE, .SDR_OUTPUT,
   .META_CAPTURE, .META_OUTPUT]

/-- Python's `V4l2BufferType(value)` enum lookup: finds the member with the
given numeric value, or fails (raising `ValueError` in Python). -/
def V4l2BufferType.ofNat? (n : Nat) : Option V4l2BufferType :=
  allBufferTypes.find? (fun b => b.toNat == n)

/-- Modelled from the spec: the capability-flag bit corresponding (by name) to
each buffer-type enumerator — the value of `V4l2Capabilities[buftype.name]` in
the source, with `v4l2interface` not in the sources. These are the kernel's
`V4L2_CAP_*` constants. -/
def V4l2BufferType.capBit : V4l2BufferType → Nat
  | VIDEO_CAPTURE => 0x1
  | VIDEO_OUTPUT => 0x2
  | VIDEO_OVERLAY => 0x4
  | VBI_CAPTURE => 0x10
  | VBI_OUTPUT => 0x20
  | SLICED_VBI_CAPTURE => 0x40
  | SLICED_VBI_OUTPUT => 0x80
  | VIDEO_OUTPUT_OVERLAY => 0x200
  | VIDEO_CAPTURE_MPLANE => 0x1000
  | VIDEO_OUTPUT_MPLANE => 0x2000
  | SDR_CAPTURE => 0x100000
  | SDR_OUTPUT => 0x400000
  | META_CAPTURE => 0x800000
  | META_OUTPUT => 0x8000000

/-- Modelled from the spec: the `DEVICE_CAPS` flag bit of `V4l2Capabilities`
(kernel constant `V4L2_CAP_DEVICE_CAPS`). -/
def DEVICE_CAPS_BIT : Nat := 0x80000000

/-- Membership of a flag in a capability bitfield — Python's
`flag in V4l2Capabilities(raw)` for an `IntFlag`, i.e. `raw & flag == flag`. -/
def hasCap (caps bit : Nat) : Bool :=
  caps &&& bit == bit

/-- A Python value held in the facade's `_buffer_type` slot: either a proper
enumeration member or a raw integer that was assigned uncoerced by the
`buffer_type` setter. -/
inductive PyBufVal
  | enum (b : V4l2BufferType)
  | int (n : Nat)
deriving DecidableEq, Repr

/-- Numeric value of the slot's content. An `IntEnum` member compares equal
to its numeric value, so Python `==` between two such values is equality of
these codes. -/
def PyBufVal.toCode : PyBufVal → Nat
  | .enum b => b.toNat
  | .int n => n

/-- Python's `v in lst` where `lst` is a list of `IntEnum` members and `v` is
an enum member or a plain integer: membership by `==`, i.e. numeric code
equality. -/
def pyMemBT (v : PyBufVal) (l : List V4l2BufferType) : Bool :=
  l.any (fun b => b.toNat == v.toCode)

/-- The result structure of the `VIDIOC_QUERYCAP` ioctl as delivered by the
transport (`caps` in `V4l2Device.__init__`): identity strings, the packed
kernel version, and the two raw capability bitfields. -/
structure QueryCap where
  driver : String
  card : String
  bus_info : String
  version : Nat
  capabilities : Nat
  device_caps : Nat
deriving DecidableEq, Repr

/-- State of a successfully constructed `V4l2Device` facade. The capability
fields are fixed at construction; `bufferType` is the one mutable slot
(`_buffer_type`). -/
structure V4l2Device where
  driver : String
  name : String
  bus : String
  version : Nat × Nat × Nat
  physicalCaps : Nat
  deviceCaps : Nat
  supportedBufferTypes : List V4l2BufferType
  bufferType : PyBufVal
deriving DecidableEq, Repr

/-- Failure mode of construction after a successful capability query: the
supported-buffer-type list is empty and `self._supported_buffer_types[0]`
raises `IndexError`. -/
inductive InitError
  | indexError
deriving DecidableEq, Repr

/-- Rendering of the list printed by the stray `print` call in
`V4l2Device.__init__` (Python prints the list's repr followed by a newline). -/
def renderBufList (l : List V4l2BufferType) : String :=
  "[" ++ String.intercalate ", " (l.map (fun b =>
    "<V4l2BufferType." ++ b.pyName ++ ": " ++ toString b.toNat ++ ">")) ++ "]"

/-- The device-specific capability set computed by `__init__`: decoded from
`caps.device_caps` when the `DEVICE_CAPS` flag is present in the physical
set, otherwise aliased to the physical set itself. -/
def effectiveDeviceCaps (caps : QueryCap) : Nat :=
  if hasCap caps.capabilities DEVICE_CAPS_BIT then caps.device_caps
  else caps.capabilities

/-- Embedding of `V4l2Device.__init__` from the successful capability query
onward: decodes the version triple and both capability sets, computes the
supported-buffer-type list, prints it (the stray `print` on line 128 of the
source — returned here as the list of stdout lines), and selects the first
supported buffer type, failing with `IndexError` when the list is empty. -/
def V4l2Device.init (caps : QueryCap) : Except InitError V4l2Device × List String :=
  let physical := caps.capabilities
  let devcaps := effectiveDeviceCaps caps
  let supported := allBufferTypes.filter (fun b => hasCap devcaps b.capBit)
  let printed := [renderBufList supported]
  match supported with
  | [] => (.error .indexError, printed)
  | bt :: _ =>
    (.ok { driver := caps.driver
           name := caps.card
           bus := caps.bus_info
           version := ((caps.version &&& 0xFF0000) >>> 16,
                       (caps.version &&& 0x00FF00) >>> 8,
                       caps.version &&& 0x0000FF)
           physicalCaps := physical
           deviceCaps := devcaps
           supportedBufferTypes := supported
           bufferType := .enum bt }, printed)

/-- One kernel ioctl call issued through the transport, as recorded in the
observable call trace of an operation. -/
inductive KernelCall
  | enumFmt (index btype : Nat)
  | enumFrameSizes (index pixelformat : Nat)
  | cropCap (btype : Nat)
  | getCrop (btype : Nat)
  | setCrop (btype : Nat) (left top : Int) (width height : Nat)
deriving DecidableEq, Repr

/-- Exception raised by the `buffer_type` setter: Python `ValueError`, either
from the `V4l2BufferType(buffer_type)` conversion of an unknown code or from
the explicit unsupported-buffer-type check. -/
inductive SetBufErr
  | valueError (msg : String)
deriving DecidableEq, Repr

/-- Embedding of the `buffer_type` setter: converts the argument to the
enumeration (raising `ValueError` for an unknown code), rejects members
absent from the supported list, and otherwise stores the RAW argument value
(`self._buffer_type = buffer_type`, uncoerced). No kernel call occurs. -/
def V4l2Device.setBufferType (d : V4l2Device) (v : PyBufVal) :
    Except SetBufErr V4l2Device :=
  match V4l2BufferType.ofNat? v.toCode with
  | none =>
    .error (.valueError (toString v.toCode ++ " is not a valid V4l2BufferType"))
  | some bt =>
    if bt ∈ d.supportedBufferTypes then
      .ok { d with bufferType := v }
    else
      .error (.valueError ("This device supports only the following buffer" ++
        " types: " ++ String.intercalate ", "
          (d.supportedBufferTypes.map V4l2BufferType.pyName)))

/-- An assignment ATTEMPT on `buffer_type`, as Python executes it: on an
exception the facade object survives unchanged. Returns the facade state
after the attempt, the raised exception (if any), and the kernel-call trace
of the attempt (always empty: the setter issues no ioctl). -/
def V4l2Device.trySetBufferType (d : V4l2Device) (v : PyBufVal) :
    V4l2Device × Option SetBufErr × List KernelCall :=
  match d.setBufferType v with
  | .ok d2 => (d2, none, [])
  | .error e => (d, some e, [])

/-- Embedding of the `buffer_type` property getter: returns the stored slot
value as-is. -/
def V4l2Device.bufferTypeGet (d : V4l2Device) : PyBufVal :=
  d.bufferType

/-- The class attribute `V4l2Device.cropping_buffer_types`: the only buffer
types for which cropping queries are valid. -/
def croppingBufferTypes : List V4l2BufferType :=
  [.VIDEO_CAPTURE, .VIDEO_CAPTURE_MPLANE, .VIDEO_OUTPUT,
   .VIDEO_OUTPUT_MPLANE, .VIDEO_OVERLAY]

/-- A rectangle value (`struct v4l2_rect`): position and size. -/
structure Rect where
  left : Int
  top : Int
  width : Nat
  height : Nat
deriving DecidableEq, Repr

/-- Result structure of the `VIDIOC_CROPCAP` ioctl as delivered by the
transport. -/
structure CropCapsRaw where
  bounds : Rect
  defrect : Rect
  pixelaspect_num : Nat
  pixelaspect_den : Nat
deriving DecidableEq, Repr

/-- Modelled from the spec: `V4l2CroppingCapabilities` (module `v4l2types`,
not in the sources) is an immutable value type decoded field-for-field from
the `VIDIOC_CROPCAP` result by `_from_v4l2`. -/
structure V4l2CroppingCapabilities where
  bounds : Rect
  defrect : Rect
  pixelaspect_num : Nat
  pixelaspect_den : Nat
deriving DecidableEq, Repr

/-- Modelled from the spec: the decoding step
`V4l2CroppingCapabilities._from_v4l2(crop_caps)` copies the queried fields
into the value type. -/
def V4l2CroppingCapabilities.fromV4l2 (c : CropCapsRaw) : V4l2CroppingCapabilities :=
  { bounds := c.bounds, defrect := c.defrect,
    pixelaspect_num := c.pixelaspect_num, pixelaspect_den := c.pixelaspect_den }

/-- Exception surfaced by the cropping accessors: the library's
`FeatureNotSupported`, or a propagated transport error. -/
inductive CropErr
  | featureNotSupported (msg : String)
  | ioctl (e : OSErr)
deriving DecidableEq, Repr

/-- Embedding of the `cropping_capabilities` property getter: for a selected
buffer type outside `cropping_buffer_types` (membership under Python `==`,
i.e. numeric code equality) it raises `FeatureNotSupported` issuing no ioctl;
otherwise it issues exactly one `VIDIOC_CROPCAP` call (`crop_cap`, passed in
as the transport) and decodes the result. A transport failure propagates
uncaught. -/
def V4l2Device.croppingCapabilities (d : V4l2Device)
    (crop_cap : Nat → Except OSErr CropCapsRaw) :
    Except CropErr V4l2CroppingCapabilities × List KernelCall :=
  if pyMemBT d.bufferType croppingBufferTypes then
    match crop_cap d.bufferType.toCode with
    | .error e => (.error (.ioctl e), [.cropCap d.bufferType.toCode])
    | .ok c => (.ok (V4l2CroppingCapabilities.fromV4l2 c), [.cropCap d.bufferType.toCode])
  else
    (.error (.featureNotSupported ("Cropping is not supported for " ++
      toString d.bufferType.toCode)), [])

/-- Result structure of the `VIDIOC_G_CROP` ioctl (`struct v4l2_crop`): the
source reads its `c` rectangle field. -/
structure CropStruct where
  c : Rect
deriving DecidableEq, Repr

/-- Embedding of the `cropping_rectangle` property getter: issues one
`VIDIOC_G_CROP` call for the current buffer type; an `IoctlError` whose
rendered message contains "Errno 22" becomes `FeatureNotSupported`, every
other `IoctlError` is re-raised. -/
def V4l2Device.croppingRectangleGet (d : V4l2Device)
    (get_crop : Nat → Except OSErr CropStruct) :
    Except CropErr Rect × List KernelCall :=
  match get_crop d.bufferType.toCode with
  | .error e =>
    if strContains (OSErr.render e) ("Errno 22") then
      (.error (.featureNotSupported "Cropping is not supported"),
       [.getCrop d.bufferType.toCode])
    else
      (.error (.ioctl e), [.getCrop d.bufferType.toCode])
  | .ok cropping => (.ok cropping.c, [.getCrop d.bufferType.toCode])

/-- Embedding of the `cropping_rectangle` property setter: issues one
`VIDIOC_S_CROP` call for the current buffer type; an `IoctlError` whose
rendered message contains "Errno 25" becomes `FeatureNotSupported`. The
`except` clause in the source has no `else: raise`, so every other
`IoctlError` is swallowed and the setter returns normally. -/
def V4l2Device.croppingRectangleSet (d : V4l2Device) (rectangle : Rect)
    (set_crop : Nat → Rect → Except OSErr Unit) :
    Except CropErr Unit × List KernelCall :=
  let tr : KernelCall := .setCrop d.bufferType.toCode rectangle.left
    rectangle.top rectangle.width rectangle.height
  match set_crop d.bufferType.toCode rectangle with
  | .error e =>
    if strContains (OSErr.render e) ("Errno 25") then
      (.error (.featureNotSupported "Cropping is not supported"), [tr])
    else
      (.ok (), [tr])
  | .ok _ => (.ok (), [tr])

/-- The bounded enumeration loop shared by `V4l2Device.iter_buffer_formats`
and `V4l2Format.sizes`: starting at index `idx` with `fuel` iterations left
(the `while idx < 2**32` guard), query the indexed transport operation;
yield the result and continue on success, end the sequence on any
`OSError`-class failure (the bare `except OSError: break`). -/
def enumWalk (q : Nat → Except OSErr α) : Nat → Nat → List α
  | 0, _ => []
  | fuel + 1, idx =>
    match q idx with
    | .error _ => []
    | .ok a => a :: enumWalk q fuel (idx + 1)

/-- The format-descriptor structure delivered by the `VIDIOC_ENUM_FMT`
transport operation (`fmt_desc` in the source). -/
structure FmtDesc where
  pixelformat : Nat
  description : String
  flags : Nat
deriving DecidableEq, Repr

/-- The frame-size structure delivered by the `VIDIOC_ENUM_FRAMESIZES`
transport operation. -/
structure FrmSize where
  width : Nat
  height : Nat
deriving DecidableEq, Repr

/-- Embedding of `V4l2Device.iter_buffer_formats`: walks `enum_fmt` at
indices 0, 1, 2, … (bounded by the 32-bit index width) for the given buffer
type, yielding each returned descriptor, until an `OSError`-class failure
ends the sequence. -/
def iterBufferFormats (enum_fmt : Nat → Nat → Except OSErr FmtDesc)
    (buffer_type : Nat) : List FmtDesc :=
  enumWalk (fun i => enum_fmt i buffer_type) (2 ^ 32) 0

/-- Embedding of `V4l2Format.sizes`: walks `enum_frame_sizes` at indices
0, 1, 2, … (bounded by the 32-bit index width) for this format's pixel
format, yielding each returned size, until an `OSError`-class failure ends
the sequence. -/
def formatSizes (enum_frame_sizes : Nat → Nat → Except OSErr FrmSize)
    (pixelformat : Nat) : List FrmSize :=
  enumWalk (fun i => enum_frame_sizes i pixelformat) (2 ^ 32) 0

/-- One directory entry collected by device discovery: its path, whether it
is a symbolic link, and the path its resolution yields. -/
structure DevEntry where
  path : String
  symlink : Bool
  resolved : String
deriving DecidableEq, Repr

/-- The condition marking an entry for removal in
`V4l2DeviceIterator.__iter__`: `dev.is_symlink() and dev.resolve() in
dev_list`, where the membership test runs against the full collected list. -/
def redundantLink (dev_list : List DevEntry) (dev : DevEntry) : Bool :=
  dev.symlink && dev_list.any (fun e => e.path == dev.resolved)

/-- The index-collection loop `for idx, dev in enumerate(dev_list): …
to_remove.append(idx)`, generalized over the running index. -/
def collectRemoveIdx (p : DevEntry → Bool) : List DevEntry → Nat → List Nat
  | [], _ => []
  | d :: rest, idx =>
    if p d then idx :: collectRemoveIdx p rest (idx + 1)
    else collectRemoveIdx p rest (idx + 1)

/-- The removal loop `for dev_idx in reversed(to_remove): del
dev_list[dev_idx]` applied to a list of indices. -/
def deleteReversed (l : List DevEntry) (to_remove : List Nat) : List DevEntry :=
  to_remove.reverse.foldl (fun acc i => acc.eraseIdx i) l

/-- Embedding of the link-skipping phase of `V4l2DeviceIterator.__iter__`:
with link-skipping enabled, collect the indices of redundant symlinks over
the full list, then delete them from the end backward; with it disabled,
keep the collected list as is. -/
def iterCollect (skip_links : Bool) (dev_list : List DevEntry) : List DevEntry :=
  if skip_links then
    deleteReversed dev_list (collectRemoveIdx (redundantLink dev_list) dev_list 0)
  else
    dev_list

/-!
Concrete fixtures used by witnesses, counterexamples and evidence theorems:
a UVC-style camera (device-specific caps present), a vivid-style
capture+output device (no `DEVICE_CAPS` flag), and a VBI device whose
selected buffer type is outside the cropping set.
-/

/-- Capability-query result of a camera reporting `DEVICE_CAPS`:
physical `0x85200001`, device-specific `0x04200001` (`VIDEO_CAPTURE` only
among buffer-type bits), kernel 5.4.15. -/
def capsEx : QueryCap :=
  { driver := "uvcvideo", card := "Cam", bus_info := "usb-1.2",
    version := 0x05040F, capabilities := 0x85200001, device_caps := 0x04200001 }

/-- The facade state `V4l2Device.init capsEx` constructs. -/
def devEx : V4l2Device :=
  { driver := "uvcvideo", name := "Cam", bus := "usb-1.2", version := (5, 4, 15),
    physicalCaps := 0x85200001, deviceCaps := 0x04200001,
    supportedBufferTypes := [.VIDEO_CAPTURE], bufferType := .enum .VIDEO_CAPTURE }

/-- Capability-query result of a device without the `DEVICE_CAPS` flag:
capabilities `0x3` (`VIDEO_CAPTURE` and `VIDEO_OUTPUT`). -/
def capsNoFlag : QueryCap :=
  { driver := "vivid", card := "vivid-000", bus_info := "platform:vivid",
    version := 0x050A00, capabilities := 0x3, device_caps := 0 }

/-- The facade state `V4l2Device.init capsNoFlag` constructs: the
device-specific set falls back to the physical set. -/
def devNoFlag : V4l2Device :=
  { driver := "vivid", name := "vivid-000", bus := "platform:vivid",
    version := (5, 10, 0), physicalCaps := 0x3, deviceCaps := 0x3,
    supportedBufferTypes := [.VIDEO_CAPTURE, .VIDEO_OUTPUT],
    bufferType := .enum .VIDEO_CAPTURE }

/-- Capability-query result whose device-specific set contains no
buffer-type bit at all: the supported list comes out empty. -/
def capsEmpty : QueryCap :=
  { driver := "odd", card := "odd", bus_info := "none",
    version := 0, capabilities := 0x80000000, device_caps := 0 }

/-- A facade whose selected buffer type (`VBI_CAPTURE`) is outside the
cropping-capable set. -/
def devVbi : V4l2Device :=
  { driver := "vbi", name := "vbi", bus := "none", version := (5, 4, 15),
    physicalCaps := 0x10, deviceCaps := 0x10,
    supportedBufferTypes := [.VBI_CAPTURE], bufferType := .enum .VBI_CAPTURE }

/-- A sample format descriptor for index `i`. -/
def fdEx (i : Nat) : FmtDesc :=
  { pixelformat := 0x56595559, description := "YUYV " ++ toString i, flags := 0 }

/-- A sample frame size for index `i`. -/
def fsEx (i : Nat) : FrmSize :=
  { width := 640 + i, height := 480 }

/-- A format-enumeration transport succeeding at indices 0 and 1 and failing
at index 2 with errno 5 (`EIO`) — an error that is not of the
invalid-argument class. -/
def enumFmtEx : Nat → Nat → Except OSErr FmtDesc := fun i _ =>
  if i < 2 then .ok (fdEx i) else .error ⟨5, "Input-output error"⟩

/-- A frame-size transport succeeding at index 0 and failing at index 1 with
errno 19 (`ENODEV`) — again not invalid-argument class. -/
def enumSizesEx : Nat → Nat → Except OSErr FrmSize := fun i _ =>
  if i < 1 then .ok (fsEx i) else .error ⟨19, "No such device"⟩

/-- A sample cropping rectangle. -/
def rectEx : Rect :=
  { left := 8, top := 4, width := 640, height := 480 }

/-- A `VIDIOC_S_CROP` transport failing with errno 22 (`EINVAL`) — an errno
that is neither the recognized errno 25 nor a success. -/
def setCropFail22 : Nat → Rect → Except OSErr Unit := fun _ _ =>
  .error ⟨22, "Invalid argument"⟩

/-- A regular (non-link) device-file entry. -/
def entReg : DevEntry :=
  { path := "/dev/video0", symlink := false, resolved := "/dev/video0" }

/-- A symbolic-link entry resolving to `/dev/video0`. -/
def entLink : DevEntry :=
  { path := "/dev/video1", symlink := true, resolved := "/dev/video0" }

/-- A `VIDIOC_CROPCAP` transport returning a fixed result. -/
def cropCapOk : Nat → Except OSErr CropCapsRaw := fun _ =>
  .ok { bounds := { left := 0, top := 0, width := 1920, height := 1080 },
        defrect := { left := 0, top := 0, width := 1920, height := 1080 },
        pixelaspect_num := 1, pixelaspect_den := 1 }

/-!
Helper lemmas.
-/

/-- The enum lookup `V4l2BufferType(n)` only succeeds on the member whose
numeric value is `n`. -/
lemma ofNat?_toNat {n : Nat} {b : V4l2BufferType}
    (h : V4l2BufferType.ofNat? n = some b) : b.toNat = n := by
  have := List.find?_some h
  simpa using this

/-- Characterization of the bounded enumeration loop on a transport whose
first failure is at index `n`: with enough fuel, the walk starting at `idx`
yields exactly the successful results at indices `idx, …, n - 1`. -/
lemma enumWalk_eq_of_firstFail (q : Nat → Except OSErr α) (f : Nat → α)
    (n : Nat) (e : OSErr)
    (hok : ∀ i, i < n → q i = .ok (f i)) (herr : q n = .error e) :
    ∀ (fuel idx : Nat), idx ≤ n → n < idx + fuel →
      enumWalk q fuel idx = (List.range' idx (n - idx)).map f := by
  intro fuel
  induction fuel with
  | zero => intro idx h1 h2; omega
  | succ fuel ih =>
    intro idx h1 h2
    rcases Nat.lt_or_ge idx n with hlt | hge
    · have hq := hok idx hlt
      have hsub : n - idx = (n - (idx + 1)) + 1 := by omega
      rw [hsub, List.range'_succ]
      simp only [enumWalk, hq, List.map_cons]
      rw [ih (idx + 1) hlt (by omega)]
    · have hidx : idx = n := by omega
      subst hidx
      simp [enumWalk, herr, Nat.sub_self]

/-- Index-collection with a shifted starting index shifts every collected
index. -/
lemma collectRemoveIdx_shift (p : DevEntry → Bool) :
    ∀ (l : List DevEntry) (m : Nat),
      collectRemoveIdx p l (m + 1) = (collectRemoveIdx p l m).map (· + 1) := by
  intro l
  induction l with
  | nil => intro m; simp [collectRemoveIdx]
  | cons a t ih =>
    intro m
    by_cases hp : p a = true <;> simp [collectRemoveIdx, hp, ih (m + 1)]

/-- Python's reversed deletion loop is a right fold of `eraseIdx` over the
collected indices. -/
lemma deleteReversed_eq_foldr (l : List DevEntry) (js : List Nat) :
    deleteReversed l js = js.foldr (fun i acc => acc.eraseIdx i) l := by
  unfold deleteReversed
  rw [List.foldl_reverse]

/-- Deleting a block of indices that all sit one step to the right leaves the
head element untouched. -/
lemma foldr_eraseIdx_map_succ (js : List Nat) (a : DevEntry) (l : List DevEntry) :
    (js.map (· + 1)).foldr (fun i acc => acc.eraseIdx i) (a :: l) =
      a :: js.foldr (fun i acc => acc.eraseIdx i) l := by
  induction js with
  | nil => simp
  | cons j js ih => simp [ih, List.eraseIdx_cons_succ]

/-- Collecting the indices satisfying `p` over a list and then deleting them
from the end backward is exactly filtering out the elements satisfying
`p`. -/
lemma removal_is_filter (p : DevEntry → Bool) :
    ∀ l : List DevEntry,
      (collectRemoveIdx p l 0).foldr (fun i acc => acc.eraseIdx i) l =
        l.filter (fun d => !(p d)) := by
  intro l
  induction l with
  | nil => simp [collectRemoveIdx]
  | cons a t ih =>
    have hshift : collectRemoveIdx p t 1 = (collectRemoveIdx p t 0).map (· + 1) := by
      have := collectRemoveIdx_shift p t 0
      simpa using this
    by_cases hp : p a = true
    · have hc : collectRemoveIdx p (a :: t) 0 =
          0 :: (collectRemoveIdx p t 0).map (· + 1) := by
        simp [collectRemoveIdx, hp, hshift]
      rw [hc]
      simp [foldr_eraseIdx_map_succ, ih, List.filter_cons, hp]
    · have hc : collectRemoveIdx p (a :: t) 0 =
          (collectRemoveIdx p t 0).map (· + 1) := by
        simp [collectRemoveIdx, hp, hshift]
      rw [hc]
      simp [foldr_eraseIdx_map_succ, ih, List.filter_cons, hp]

/-- Successful construction decomposed: the filtered buffer-type list is
nonempty and the facade's fields are the decoded query data, with the first
supported buffer type selected. -/
lemma init_ok_spec {caps : QueryCap} {d : V4l2Device} {out : List String}
    (h : V4l2Device.init caps = (.ok d, out)) :
    ∃ bt rest,
      allBufferTypes.filter (fun b => hasCap (effectiveDeviceCaps caps) b.capBit) =
        bt :: rest ∧
      d.supportedBufferTypes = bt :: rest ∧
      d.bufferType = .enum bt ∧
      d.deviceCaps = effectiveDeviceCaps caps ∧
      d.physicalCaps = caps.capabilities := by
  simp only [V4l2Device.init] at h
  rcases hs : allBufferTypes.filter (fun b => hasCap (effectiveDeviceCaps caps) b.capBit)
    with _ | ⟨bt, rest⟩
  · rw [hs] at h
    simp at h
  · rw [hs] at h
    simp only [Prod.mk.injEq, Except.ok.injEq] at h
    refine ⟨bt, rest, hs, ?_, ?_, ?_, ?_⟩ <;> rw [← h.1]

/-!
Claim theorems.
-/

/-- C1: for every successfully constructed `V4l2Device`, the currently
selected buffer type is a member of the device's supported-buffer-type list
(membership under Python `==`, i.e. numeric code equality, since the setter
may store a raw integer): it holds immediately after construction, and it is
preserved by every `buffer_type` assignment attempt, successful or not. No
other facade operation writes the selection, so it holds after every
operation. -/
theorem buffer_type_always_supported :
    (∀ (caps : QueryCap) (d : V4l2Device) (out : List String),
      V4l2Device.init caps = (.ok d, out) →
      pyMemBT d.bufferType d.supportedBufferTypes = true) ∧
    (∀ (d : V4l2Device) (v : PyBufVal),
      pyMemBT d.bufferType d.supportedBufferTypes = true →
      pyMemBT (d.trySetBufferType v).1.bufferType
        (d.trySetBufferType v).1.supportedBufferTypes = true) := by
  constructor
  · intro caps d out h
    obtain ⟨bt, rest, _, hsup, hbt, _, _⟩ := init_ok_spec h
    rw [hsup, hbt]
    simp [pyMemBT, PyBufVal.toCode]
  · intro d v h
    unfold V4l2Device.trySetBufferType
    rcases hset : d.setBufferType v with e | d2
    · simpa using h
    · unfold V4l2Device.setBufferType at hset
      rcases ho : V4l2BufferType.ofNat? v.toCode with _ | bt
      · simp [ho] at hset
      · simp only [ho] at hset
        by_cases hmem : bt ∈ d.supportedBufferTypes
        · rw [if_pos hmem] at hset
          injection hset with h2
          subst h2
          simp only []
          simp [pyMemBT, List.any_eq_true]
          exact ⟨bt, hmem, ofNat?_toNat ho⟩
        · rw [if_neg hmem] at hset
          cases hset

/-- Witness for C1: the camera fixture satisfies the invariant right after
construction, and the invariant survives a concrete successful assignment of
the raw integer 2 on the two-buffer-type fixture. -/
theorem buffer_type_always_supported_witness :
    pyMemBT devEx.bufferType devEx.supportedBufferTypes = true ∧
    pyMemBT (devNoFlag.trySetBufferType (.int 2)).1.bufferType
      (devNoFlag.trySetBufferType (.int 2)).1.supportedBufferTypes = true :=
  ⟨buffer_type_always_supported.1 capsEx devEx
      ["[<V4l2BufferType.VIDEO_CAPTURE: 1>]"] (by decide),
   buffer_type_always_supported.2 devNoFlag (.int 2) (by decide)⟩

/-- C4: for every facade and every value not in its supported-buffer-type
list (under Python `==` membership), the `buffer_type` assignment attempt
raises a `ValueError` synchronously — its kernel-call trace is empty — and
leaves the facade state, in particular the current selection, exactly as it
was. -/
theorem unsupported_selection_rejected_without_kernel_call :
    ∀ (d : V4l2Device) (v : PyBufVal),
      pyMemBT v d.supportedBufferTypes = false →
      (d.trySetBufferType v).1 = d ∧
      (d.trySetBufferType v).2.1.isSome = true ∧
      (d.trySetBufferType v).2.2 = [] := by
  intro d v h
  unfold V4l2Device.trySetBufferType V4l2Device.setBufferType
  rcases ho : V4l2BufferType.ofNat? v.toCode with _ | bt
  · simp
  · have hmem : bt ∉ d.supportedBufferTypes := by
      intro hm
      have htrue : pyMemBT v d.supportedBufferTypes = true := by
        simp [pyMemBT, List.any_eq_true]
        exact ⟨bt, hm, ofNat?_toNat ho⟩
      rw [htrue] at h
      cases h
    simp [hmem]

/-- Witness for C4: assigning `VIDEO_OUTPUT` on the capture-only camera
fixture is rejected with no state change and no kernel call. -/
theorem unsupported_selection_rejected_without_kernel_call_witness :
    (devEx.trySetBufferType (.enum .VIDEO_OUTPUT)).1 = devEx ∧
    (devEx.trySetBufferType (.enum .VIDEO_OUTPUT)).2.1.isSome = true ∧
    (devEx.trySetBufferType (.enum .VIDEO_OUTPUT)).2.2 = [] :=
  unsupported_selection_rejected_without_kernel_call devEx
    (.enum .VIDEO_OUTPUT) (by decide)

/-- C5: at construction the supported-buffer-type list is exactly the list
of known buffer-type enumerators whose corresponding capability bit is in
the device-specific capability set, in canonical declaration order; an empty
list makes construction fail (the `IndexError` from indexing the first
element); otherwise the default selection is the list's first entry. -/
theorem supported_buffer_types_construction :
    ∀ caps : QueryCap,
      (∀ (d : V4l2Device) (out : List String),
        V4l2Device.init caps = (.ok d, out) →
        d.supportedBufferTypes =
          allBufferTypes.filter (fun b => hasCap d.deviceCaps b.capBit) ∧
        ∃ bt, d.supportedBufferTypes.head? = some bt ∧ d.bufferType = .enum bt) ∧
      (allBufferTypes.filter (fun b => hasCap (effectiveDeviceCaps caps) b.capBit) = [] →
        (V4l2Device.init caps).1 = .error .indexError) := by
  intro caps
  constructor
  · intro d out h
    obtain ⟨bt, rest, hfil, hsup, hbt, hdc, _⟩ := init_ok_spec h
    constructor
    · rw [hsup, hdc, hfil]
    · exact ⟨bt, by rw [hsup]; rfl, hbt⟩
  · intro hempty
    simp only [V4l2Device.init]
    rw [hempty]

/-- Witness for C5: the camera fixture's list is the filtered enumeration
with `VIDEO_CAPTURE` first, and the fixture with no buffer-type capability
bit fails construction with `IndexError`. -/
theorem supported_buffer_types_construction_witness :
    devEx.supportedBufferTypes =
      allBufferTypes.filter (fun b => hasCap devEx.deviceCaps b.capBit) ∧
    (V4l2Device.init capsEmpty).1 = .error .indexError :=
  ⟨((supported_buffer_types_construction capsEx).1 devEx
      ["[<V4l2BufferType.VIDEO_CAPTURE: 1>]"] (by decide)).1,
   (supported_buffer_types_construction capsEmpty).2 (by decide)⟩

/-- C6: for every constructed facade, if `DEVICE_CAPS` is absent from the
physical capability set then the device-specific set equals the physical
set; if it is present, the device-specific set is decoded from the
`device_caps` field of the capability query. -/
theorem device_caps_fallback :
    ∀ (caps : QueryCap) (d : V4l2Device) (out : List String),
      V4l2Device.init caps = (.ok d, out) →
      (hasCap caps.capabilities DEVICE_CAPS_BIT = false →
        d.deviceCaps = d.physicalCaps) ∧
      (hasCap caps.capabilities DEVICE_CAPS_BIT = true →
        d.deviceCaps = caps.device_caps) := by
  intro caps d out h
  obtain ⟨bt, rest, _, _, _, hdc, hpc⟩ := init_ok_spec h
  constructor
  · intro hflag
    rw [hdc, hpc]
    unfold effectiveDeviceCaps
    simp [hflag]
  · intro hflag
    rw [hdc]
    unfold effectiveDeviceCaps
    simp [hflag]

/-- Witness for C6: the no-flag fixture falls back to the physical set, the
camera fixture decodes the separate `device_caps` field. -/
theorem device_caps_fallback_witness :
    devNoFlag.deviceCaps = devNoFlag.physicalCaps ∧
    devEx.deviceCaps = capsEx.device_caps :=
  ⟨(device_caps_fallback capsNoFlag devNoFlag
      ["[<V4l2BufferType.VIDEO_CAPTURE: 1>, <V4l2BufferType.VIDEO_OUTPUT: 2>]"]
      (by decide)).1 (by decide),
   (device_caps_fallback capsEx devEx
      ["[<V4l2BufferType.VIDEO_CAPTURE: 1>]"] (by decide)).2 (by decide)⟩

/-- C7: reading `cropping_capabilities` while the selected buffer type is
outside `cropping_buffer_types` raises `FeatureNotSupported` with an empty
kernel-call trace; for a selected buffer type inside that set exactly one
`VIDIOC_CROPCAP` query is issued, and on success its decoded result is
returned. -/
theorem cropping_capabilities_gate :
    ∀ (d : V4l2Device) (crop_cap : Nat → Except OSErr CropCapsRaw),
      (pyMemBT d.bufferType croppingBufferTypes = false →
        (d.croppingCapabilities crop_cap).2 = [] ∧
        ∃ s, (d.croppingCapabilities crop_cap).1 = .error (.featureNotSupported s)) ∧
      (pyMemBT d.bufferType croppingBufferTypes = true →
        (d.croppingCapabilities crop_cap).2 = [.cropCap d.bufferType.toCode] ∧
        ∀ c, crop_cap d.bufferType.toCode = .ok c →
          (d.croppingCapabilities crop_cap).1 =
            .ok (V4l2CroppingCapabilities.fromV4l2 c)) := by
  intro d k
  constructor
  · intro h
    unfold V4l2Device.croppingCapabilities
    rw [h]
    exact ⟨rfl, _, rfl⟩
  · intro h
    unfold V4l2Device.croppingCapabilities
    rw [h]
    constructor
    · rcases hk : k d.bufferType.toCode with e | c <;> simp [hk]
    · intro c hc
      simp [hc]

/-- Witness for C7: the VBI fixture is refused without a kernel call, the
camera fixture issues one `VIDIOC_CROPCAP` call and returns the decoded
capabilities. -/
theorem cropping_capabilities_gate_witness :
    (devVbi.croppingCapabilities cropCapOk).2 = [] ∧
    (devEx.croppingCapabilities cropCapOk).2 = [.cropCap 1] ∧
    (devEx.croppingCapabilities cropCapOk).1 =
      .ok (V4l2CroppingCapabilities.fromV4l2
        { bounds := { left := 0, top := 0, width := 1920, height := 1080 },
          defrect := { left := 0, top := 0, width := 1920, height := 1080 },
          pixelaspect_num := 1, pixelaspect_den := 1 }) :=
  ⟨((cropping_capabilities_gate devVbi cropCapOk).1 (by decide)).1,
   ((cropping_capabilities_gate devEx cropCapOk).2 (by decide)).1,
   ((cropping_capabilities_gate devEx cropCapOk).2 (by decide)).2
      _ (by decide)⟩

/-- C10: the `buffer_type` setter checks membership on the value converted
to the enumeration but assigns the raw argument value, so after a successful
assignment of a plain integer the getter returns that integer value, never
an enumeration member. -/
theorem buffer_type_setter_stores_raw_value :
    ∀ (d : V4l2Device) (n : Nat) (bt : V4l2BufferType),
      V4l2BufferType.ofNat? n = some bt →
      bt ∈ d.supportedBufferTypes →
      d.setBufferType (.int n) = .ok { d with bufferType := .int n } ∧
      V4l2Device.bufferTypeGet { d with bufferType := .int n } = .int n ∧
      ∀ b : V4l2BufferType,
        V4l2Device.bufferTypeGet { d with bufferType := .int n } ≠ .enum b := by
  intro d n bt ho hmem
  refine ⟨?_, rfl, ?_⟩
  · unfold V4l2Device.setBufferType
    simp only [PyBufVal.toCode, ho]
    rw [if_pos hmem]
  · intro b
    simp [V4l2Device.bufferTypeGet]

/-- Witness for C10: assigning the plain integer 2 on the two-buffer-type
fixture succeeds and the getter afterwards returns the integer 2, not the
`VIDEO_OUTPUT` member. -/
theorem buffer_type_setter_stores_raw_value_witness :
    devNoFlag.setBufferType (.int 2) =
      .ok { devNoFlag with bufferType := .int 2 } ∧
    V4l2Device.bufferTypeGet { devNoFlag with bufferType := .int 2 } = .int 2 ∧
    V4l2Device.bufferTypeGet { devNoFlag with bufferType := .int 2 } ≠
      .enum .VIDEO_OUTPUT :=
  ⟨(buffer_type_setter_stores_raw_value devNoFlag 2 .VIDEO_OUTPUT
      (by decide) (by decide)).1,
   (buffer_type_setter_stores_raw_value devNoFlag 2 .VIDEO_OUTPUT
      (by decide) (by decide)).2.1,
   (buffer_type_setter_stores_raw_value devNoFlag 2 .VIDEO_OUTPUT
      (by decide) (by decide)).2.2 .VIDEO_OUTPUT⟩

/-- C2 counterexample: the claim says a failure that is not of the
invalid-argument class propagates to the caller as a fatal error instead of
ending the sequence, but on a transport whose first failure (index 2) has
errno 5 (`EIO`, not errno 22) format enumeration ends the sequence normally
after the two successful items — the bare `except OSError` swallows every
`OSError`-class failure. -/
theorem enumeration_swallows_eio_counterexample :
    iterBufferFormats enumFmtEx 1 = [fdEx 0, fdEx 1] ∧
    enumFmtEx 2 1 = .error ⟨5, "Input-output error"⟩ ∧
    (5 : Nat) ≠ 22 := by
  refine ⟨by decide, by decide, by decide⟩

/-- C2 (amended): each enumeration walk (formats and frame sizes) produces
items for index 0, 1, 2, … and the first transport failure of ANY
`OSError` class — whatever its errno — ends the sequence normally, yielding
exactly the items before it; no kernel-call failure propagates to the
caller (the walkers are total functions into plain lists). -/
theorem enumeration_ends_on_any_oserror
    (enum_fmt : Nat → Nat → Except OSErr FmtDesc) (btype : Nat)
    (enum_frame_sizes : Nat → Nat → Except OSErr FrmSize) (pixelformat : Nat)
    (n m : Nat) (e1 e2 : OSErr) (f : Nat → FmtDesc) (g : Nat → FrmSize)
    (hfok : ∀ i, i < n → enum_fmt i btype = .ok (f i))
    (hferr : enum_fmt n btype = .error e1) (hn : n < 2 ^ 32)
    (hgok : ∀ i, i < m → enum_frame_sizes i pixelformat = .ok (g i))
    (hgerr : enum_frame_sizes m pixelformat = .error e2) (hm : m < 2 ^ 32) :
    iterBufferFormats enum_fmt btype = (List.range n).map f ∧
    formatSizes enum_frame_sizes pixelformat = (List.range m).map g := by
  constructor
  · unfold iterBufferFormats
    rw [List.range_eq_range']
    have := enumWalk_eq_of_firstFail (fun i => enum_fmt i btype) f n e1
      hfok hferr (2 ^ 32) 0 (Nat.zero_le n) (by omega)
    simpa using this
  · unfold formatSizes
    rw [List.range_eq_range']
    have := enumWalk_eq_of_firstFail (fun i => enum_frame_sizes i pixelformat)
      g m e2 hgok hgerr (2 ^ 32) 0 (Nat.zero_le m) (by omega)
    simpa using this

/-- Witness for the amended C2: on the fixtures whose first failures sit at
indices 2 (formats, errno 5) and 1 (sizes, errno 19), the walks yield
exactly the items of the successful indices. -/
theorem enumeration_ends_on_any_oserror_witness :
    iterBufferFormats enumFmtEx 1 = (List.range 2).map fdEx ∧
    formatSizes enumSizesEx 0x56595559 = (List.range 1).map fsEx :=
  enumeration_ends_on_any_oserror enumFmtEx 1 enumSizesEx 0x56595559 2 1
    ⟨5, "Input-output error"⟩ ⟨19, "No such device"⟩ fdEx fsEx
    (by decide) (by decide) (by decide) (by decide) (by decide) (by decide)

/-- C3 evidence: the `cropping_rectangle` setter's `except IoctlError`
clause has no `else: raise`, so at the failing input — a `VIDIOC_S_CROP`
failure with errno 22, which is neither a success nor the recognized
errno 25 — the kernel call is issued, the error is silently swallowed, and
the setter returns normally instead of propagating a fatal I/O error as the
claim requires. -/
theorem set_crop_swallows_unrecognized_errno :
    V4l2Device.croppingRectangleSet devEx rectEx setCropFail22 =
      (.ok (), [.setCrop 1 8 4 640 480]) ∧
    setCropFail22 1 rectEx = .error ⟨22, "Invalid argument"⟩ ∧
    strContains (OSErr.render ⟨22, "Invalid argument"⟩) ("Errno 25") = false := by
  refine ⟨by decide, by decide, by decide⟩

/-- C8: with link-skipping enabled, the discovery scan removes exactly the
collected entries that are symbolic links whose resolved target appears in
the collected list (removals applied from the end backward), keeps every
non-link entry, and preserves the relative order of all survivors — the
result is an order-preserving filter, hence a sublist; with link-skipping
disabled the collected list is kept unchanged. -/
theorem skip_links_removes_redundant_symlinks :
    ∀ l : List DevEntry,
      iterCollect true l = l.filter (fun d => !(redundantLink l d)) ∧
      (iterCollect true l).Sublist l ∧
      (∀ d ∈ l, d.symlink = false → d ∈ iterCollect true l) ∧
      iterCollect false l = l := by
  intro l
  have hmain : iterCollect true l = l.filter (fun d => !(redundantLink l d)) := by
    show deleteReversed l (collectRemoveIdx (redundantLink l) l 0) = _
    rw [deleteReversed_eq_foldr, removal_is_filter]
  refine ⟨hmain, ?_, ?_, rfl⟩
  · rw [hmain]
    exact List.filter_sublist l
  · intro d hd hsym
    rw [hmain, List.mem_filter]
    exact ⟨hd, by simp [redundantLink, hsym]⟩

/-- Witness for C8: on a directory holding the regular entry `/dev/video0`
and the symlink `/dev/video1` resolving to it, link-skipping keeps only the
regular entry and disabling it keeps both. -/
theorem skip_links_removes_redundant_symlinks_witness :
    iterCollect true [entReg, entLink] = [entReg] ∧
    iterCollect false [entReg, entLink] = [entReg, entLink] := by
  have h := skip_links_removes_redundant_symlinks [entReg, entLink]
  refine ⟨?_, h.2.2.2⟩
  rw [h.1]
  decide

/-- C9 evidence: contrary to the claim that no operation writes to standard
output, `V4l2Device.__init__` unconditionally prints the supported-buffer-
type list (the stray `print` on line 128): constructing the camera fixture
writes one line to stdout. -/
theorem init_prints_supported_buffer_types :
    (V4l2Device.init capsEx).2 = ["[<V4l2BufferType.VIDEO_CAPTURE: 1>]"] ∧
    (V4l2Device.init capsEx).2 ≠ [] := by
  refine ⟨by decide, by decide⟩

end V4l2Ctl
